import Mathlib

/-!
Verification of ConvertIcon.py (TestEnvironmentBuilder).

The script converts an SVG file into a multi-resolution ICO container:
it reads the input bytes, rasterizes them at each requested square size
via the external rasterizer (cairosvg + PIL), normalizes each rendition
to the RGBA channel layout, and hands the ordered rendition list to the
external ICO encoder, writing the container to the output path.

The two third-party collaborators (the rasterizer and the container
encoder) are consumed as black boxes, so they appear here as function
parameters; the glue logic of svg_to_ico and of the script entry point
is embedded faithfully, statement by statement, with an explicit
filesystem and an event trace recording the file reads, file writes and
rasterizer invocations the code performs.
-/

namespace ConvertIcon

/-- Raw file contents, as a byte list. -/
abbrev Bytes := List Nat

/-- An in-memory raster image as handed around by the imaging library:
width, height, channel-layout mode string (PIL style, e.g. "RGBA"),
and an opaque pixel payload. -/
structure Image where
  width : Nat
  height : Nat
  mode : String
  data : List Nat
  deriving Repr, DecidableEq

/-- Embedding of the PIL mode conversion `img.convert(m)`: the result is an
image in the target mode with the same dimensions; the pixel payload is the
library concern and is carried through. -/
def Image.convert (img : Image) (m : String) : Image :=
  { img with mode := m }

/-- The Python exceptions the embedded code can raise. -/
inductive PyErr where
  | fileNotFoundError (path : String)
  | indexError
  | rasterizeError
  deriving Repr, DecidableEq

/-- A filesystem: an association of paths to file bytes. -/
structure FS where
  files : List (String × Bytes)
  deriving Repr, DecidableEq

/-- First binding of a path in an association list (later bindings are
shadowed). -/
def lookupKey (p : String) : List (String × Bytes) → Option Bytes
  | [] => none
  | e :: rest => if e.1 = p then some e.2 else lookupKey p rest

/-- Contents of a file, if present. -/
def FS.lookup (fs : FS) (p : String) : Option Bytes :=
  lookupKey p fs.files

/-- Embedding of `os.path.exists`. -/
def FS.pathExists (fs : FS) (p : String) : Bool :=
  (fs.lookup p).isSome

/-- Writing a file: the new contents shadow any previous binding at that
path. -/
def FS.writeFile (fs : FS) (p : String) (b : Bytes) : FS :=
  { files := (p, b) :: fs.files }

/-- Observable effects of a run: file reads, file writes, and calls into the
rasterization dependency. -/
inductive Event where
  | readFile (path : String)
  | writeFile (path : String)
  | rasterize (size : Nat)
  deriving Repr, DecidableEq

/-- The rasterization dependency as a black box: the composition of
`cairosvg.svg2png(bytestring=svg_data, output_width=size, output_height=size)`
and `Image.open` — SVG bytes plus a target size give a raster image, or an
exception. -/
abbrev Raster := Bytes → Nat → Except PyErr Image

/-- The structural output of
`images[0].save(ico_path, format="ICO", sizes=..., append_images=images[1:])`:
the primary image, the appended alternates, and the declared size directory
passed through the `sizes` keyword. -/
structure IcoContainer where
  primary : Image
  appended : List Image
  directory : List (Nat × Nat)
  deriving Repr, DecidableEq

/-- All images embedded in the container, primary first. -/
def IcoContainer.entries (c : IcoContainer) : List Image :=
  c.primary :: c.appended

/-- The container encoder as a black box: container structure to encoded
bytes. -/
abbrev Encoder := IcoContainer → Bytes

/-- One iteration of the body of `for size in sizes`: normalize the rendition
to RGBA — `if img.mode != "RGBA": img = img.convert("RGBA")`. -/
def normalizeRGBA (img : Image) : Image :=
  if img.mode ≠ "RGBA" then img.convert "RGBA" else img

/-- The `for size in sizes` loop of svg_to_ico: rasterize at each size in list
order, normalize to RGBA, and collect the renditions; the first exception
aborts the loop and propagates. Returns the emitted rasterizer events
alongside the outcome. -/
def renderLoop (raster : Raster) (svgData : Bytes) :
    List Nat → List Event × Except PyErr (List Image)
  | [] => ([], Except.ok [])
  | size :: rest =>
    match raster svgData size with
    | Except.error e => ([Event.rasterize size], Except.error e)
    | Except.ok img0 =>
      let img := normalizeRGBA img0
      match renderLoop raster svgData rest with
      | (evs, Except.error e) => (Event.rasterize size :: evs, Except.error e)
      | (evs, Except.ok imgs) => (Event.rasterize size :: evs, Except.ok (img :: imgs))

/-- The default value of the `sizes` parameter of svg_to_ico. -/
def defaultSizes : List Nat := [16, 32, 48, 64, 128, 256]

/-- Everything observable about one invocation of svg_to_ico: the Python
return value or the propagated exception, the filesystem afterwards, the
event trace, the container handed to the encoder (when the run reached the
save step), and the sizes list as it stands after the call. -/
structure RunResult where
  result : Except PyErr Bool
  fs : FS
  events : List Event
  container : Option IcoContainer
  sizesAfter : List Nat

/-- Embedding of `svg_to_ico(svg_path, ico_path, sizes)`:
read the SVG bytes, run the size loop, then save
`images[0]` with `append_images=images[1:]` and
`sizes=[(img.width, img.height) for img in images]`; `images[0]` on an empty
list raises IndexError. -/
def svg_to_ico (raster : Raster) (encode : Encoder) (fs : FS)
    (svg_path ico_path : String) (sizes : List Nat) : RunResult :=
  match fs.lookup svg_path with
  | none =>
    { result := Except.error (PyErr.fileNotFoundError svg_path), fs := fs,
      events := [], container := none, sizesAfter := sizes }
  | some svg_data =>
    match renderLoop raster svg_data sizes with
    | (evs, Except.error e) =>
      { result := Except.error e, fs := fs,
        events := Event.readFile svg_path :: evs,
        container := none, sizesAfter := sizes }
    | (evs, Except.ok images) =>
      match images with
      | [] =>
        { result := Except.error PyErr.indexError, fs := fs,
          events := Event.readFile svg_path :: evs,
          container := none, sizesAfter := sizes }
      | img0 :: restImgs =>
        let c : IcoContainer :=
          { primary := img0, appended := restImgs,
            directory := (img0 :: restImgs).map (fun i => (i.width, i.height)) }
        { result := Except.ok true,
          fs := fs.writeFile ico_path (encode c),
          events := Event.readFile svg_path :: evs ++ [Event.writeFile ico_path],
          container := some c, sizesAfter := sizes }

/-- Embedding of `os.path.join` for the paths built by the script. -/
def joinPath (a b : String) : String := a ++ "/" ++ b

/-- The default input path probed first by the entry point. -/
def defaultSvgPath (scriptDir : String) : String :=
  joinPath (joinPath (joinPath scriptDir "EnvironmentBuilderApp") "Resources") "TestTree.svg"

/-- The output path used by the entry point. -/
def defaultIcoPath (scriptDir : String) : String :=
  joinPath (joinPath (joinPath scriptDir "EnvironmentBuilderApp") "Resources") "TestTree.ico"

/-- The single alternate input path probed when the default is missing. -/
def fallbackSvgPath (scriptDir : String) : String :=
  joinPath (joinPath scriptDir "..") "TestTree.svg"

/-- The path-probing logic of the entry point: keep the default path if it
exists, otherwise switch to the single alternate path. -/
def resolveInput (fs : FS) (scriptDir : String) : String :=
  if fs.pathExists (defaultSvgPath scriptDir) then defaultSvgPath scriptDir
  else fallbackSvgPath scriptDir

/-- Everything observable about one run of the script entry point. -/
structure MainResult where
  exitCode : Nat
  fs : FS
  events : List Event
  notFoundMessage : Option String

/-- Embedding of the `__main__` block: build the default paths, probe the
single fallback when the default input is missing, then either run the
conversion (an uncaught exception terminates the process with a nonzero
status) or print the not-found message and exit with status 1. -/
def mainScript (raster : Raster) (encode : Encoder) (fs : FS)
    (scriptDir : String) : MainResult :=
  let svg_path := resolveInput fs scriptDir
  let ico_path := defaultIcoPath scriptDir
  if fs.pathExists svg_path then
    let r := svg_to_ico raster encode fs svg_path ico_path defaultSizes
    { exitCode := match r.result with | Except.ok _ => 0 | Except.error _ => 1,
      fs := r.fs, events := r.events, notFoundMessage := none }
  else
    { exitCode := 1, fs := fs, events := [],
      notFoundMessage := some ("SVG file not found: " ++ svg_path) }

/-- A rasterizer that always returns an image of the requested dimensions. -/
def GoodRaster (raster : Raster) : Prop :=
  ∀ b s, ∃ img, raster b s = Except.ok img ∧ img.width = s ∧ img.height = s

/-- Number of occurrences of an event in a trace. -/
def countEvent (l : List Event) (e : Event) : Nat :=
  (l.filter (fun x => decide (x = e))).length

/-- A rasterizer already producing RGBA images of the requested size. -/
def demoImage (s : Nat) : Image := ⟨s, s, "RGBA", [s]⟩

/-- A concrete well-behaved rasterizer, for witnesses. -/
def demoRaster : Raster := fun _ s => Except.ok (demoImage s)

/-- A concrete rasterizer producing palette-mode images, for witnesses. -/
def demoRasterP : Raster := fun _ s => Except.ok ⟨s, s, "P", [s]⟩

/-- A concrete encoder, for witnesses. -/
def demoEncode : Encoder := fun c => c.entries.map Image.width

/-- A filesystem holding one input file, for witnesses. -/
def demoFS : FS := ⟨[("in.svg", [7, 7])]⟩

/-- The same input file next to a stale output from an earlier run. -/
def demoFS2 : FS := ⟨[("out.ico", [9]), ("in.svg", [7, 7])]⟩

/-- An empty filesystem, for witnesses. -/
def emptyFS : FS := ⟨[]⟩

/-- A filesystem holding only the fallback input path, for witnesses. -/
def fallbackFS : FS := ⟨[(fallbackSvgPath "S", [1])]⟩

theorem demoRaster_good : GoodRaster demoRaster :=
  fun _ s => ⟨demoImage s, rfl, rfl, rfl⟩

theorem normalizeRGBA_mode (img : Image) : (normalizeRGBA img).mode = "RGBA" := by
  by_cases h : img.mode = "RGBA" <;> simp [normalizeRGBA, h, Image.convert]

theorem normalizeRGBA_width (img : Image) : (normalizeRGBA img).width = img.width := by
  by_cases h : img.mode = "RGBA" <;> simp [normalizeRGBA, h, Image.convert]

theorem normalizeRGBA_height (img : Image) : (normalizeRGBA img).height = img.height := by
  by_cases h : img.mode = "RGBA" <;> simp [normalizeRGBA, h, Image.convert]

theorem renderLoop_ok_of_good (raster : Raster) (b : Bytes) (hr : GoodRaster raster)
    (sizes : List Nat) : ∃ evs imgs,
      renderLoop raster b sizes = (evs, Except.ok imgs) ∧
      imgs.map (fun i => (i.width, i.height)) = sizes.map (fun s => (s, s)) := by
  induction sizes with
  | nil => exact ⟨[], [], rfl, rfl⟩
  | cons size rest ih =>
    obtain ⟨img, himg, hw, hh⟩ := hr b size
    obtain ⟨evs, imgs, hrec, hmap⟩ := ih
    refine ⟨Event.rasterize size :: evs, normalizeRGBA img :: imgs, ?_, ?_⟩
    · simp [renderLoop, himg, hrec]
    · simp [hmap, normalizeRGBA_width, normalizeRGBA_height, hw, hh]

theorem renderLoop_rgba (raster : Raster) (b : Bytes) (sizes : List Nat)
    (evs : List Event) (imgs : List Image)
    (h : renderLoop raster b sizes = (evs, Except.ok imgs)) :
    ∀ img ∈ imgs, img.mode = "RGBA" := by
  induction sizes generalizing evs imgs with
  | nil =>
    simp [renderLoop] at h
    obtain ⟨h1, h2⟩ := h
    subst h2
    simp
  | cons size rest ih =>
    cases hras : raster b size with
    | error e => simp [renderLoop, hras] at h
    | ok img0 =>
      cases hrec : renderLoop raster b rest with
      | mk evs2 r2 =>
        cases r2 with
        | error e => simp [renderLoop, hras, hrec] at h
        | ok imgs2 =>
          simp [renderLoop, hras, hrec] at h
          obtain ⟨h1, h2⟩ := h
          subst h2
          intro img hmem
          rcases List.mem_cons.mp hmem with hA | hB
          · rw [hA]; exact normalizeRGBA_mode img0
          · exact ih evs2 imgs2 hrec img hB

theorem renderLoop_events (raster : Raster) (b : Bytes) (sizes : List Nat) :
    ∀ e ∈ (renderLoop raster b sizes).1, ∃ s, e = Event.rasterize s := by
  induction sizes with
  | nil => simp [renderLoop]
  | cons size rest ih =>
    cases hras : raster b size with
    | error e => simp [renderLoop, hras]
    | ok img0 =>
      cases hrec : renderLoop raster b rest with
      | mk evs2 r2 =>
        cases r2 with
        | error e =>
          simp [renderLoop, hras, hrec]
          intro e he
          exact ih e (by rw [hrec]; exact he)
        | ok imgs2 =>
          simp [renderLoop, hras, hrec]
          intro e he
          exact ih e (by rw [hrec]; exact he)

theorem lookup_writeFile_self (fs : FS) (p : String) (b : Bytes) :
    (fs.writeFile p b).lookup p = some b := by
  simp [FS.lookup, FS.writeFile, lookupKey]

theorem lookup_writeFile_ne (fs : FS) (p q : String) (b : Bytes) (h : p ≠ q) :
    (fs.writeFile p b).lookup q = fs.lookup q := by
  simp [FS.lookup, FS.writeFile, lookupKey, h]

theorem countEvent_nil (e : Event) : countEvent [] e = 0 := rfl

theorem countEvent_cons (a : Event) (l : List Event) (e : Event) :
    countEvent (a :: l) e = (if a = e then 1 else 0) + countEvent l e := by
  by_cases h : a = e
  · simp [countEvent, List.filter_cons, h]
    omega
  · simp [countEvent, List.filter_cons, h]

theorem countEvent_append (l1 l2 : List Event) (e : Event) :
    countEvent (l1 ++ l2) e = countEvent l1 e + countEvent l2 e := by
  simp [countEvent, List.filter_append]

theorem countEvent_eq_zero (l : List Event) (e : Event)
    (h : ∀ x ∈ l, x ≠ e) : countEvent l e = 0 := by
  simp [countEvent, List.length_eq_zero, List.filter_eq_nil_iff]
  intro x hx
  exact h x hx

/-- C1: for every valid vector input (the input file exists and the rasterizer
returns an image of the requested dimensions for every size) and every
non-empty size list, svg_to_ico produces a container whose embedded image
count equals the length of the size list, whose i-th embedded image and i-th
directory entry both declare width and height equal to the i-th requested
size, in the same relative order as the size list, with the first entry
rendition as the primary image. -/
theorem C1_convert_dimensions (raster : Raster) (encode : Encoder) (fs : FS)
    (svg_path ico_path : String) (sizes : List Nat) (hne : sizes ≠ [])
    (hin : (fs.lookup svg_path).isSome) (hr : GoodRaster raster) :
    ∃ c, (svg_to_ico raster encode fs svg_path ico_path sizes).container = some c ∧
      c.entries.length = sizes.length ∧
      c.entries.map (fun i => (i.width, i.height)) = sizes.map (fun s => (s, s)) ∧
      c.directory = sizes.map (fun s => (s, s)) ∧
      c.entries = c.primary :: c.appended ∧
      c.primary.width = sizes.head hne ∧ c.primary.height = sizes.head hne := by
  obtain ⟨svg_data, hdata⟩ := Option.isSome_iff_exists.mp hin
  obtain ⟨evs, imgs, hloop, hmap⟩ := renderLoop_ok_of_good raster svg_data hr sizes
  cases imgs with
  | nil =>
    exfalso
    cases sizes with
    | nil => exact hne rfl
    | cons s ss => simp at hmap
  | cons img0 restImgs =>
    cases sizes with
    | nil => exact absurd rfl hne
    | cons s0 ss =>
      refine ⟨⟨img0, restImgs, (img0 :: restImgs).map (fun i => (i.width, i.height))⟩,
        ?_, ?_, ?_, ?_, rfl, ?_, ?_⟩
      · simp [svg_to_ico, hdata, hloop]
      · have := congrArg List.length hmap
        simpa [IcoContainer.entries] using this
      · simpa [IcoContainer.entries] using hmap
      · simpa using hmap
      · simp at hmap
        exact hmap.1.1
      · simp at hmap
        exact hmap.1.2

/-- C1 witness: at sizes = [16, 32] the container embeds two images declaring
16 by 16 and 32 by 32, in order, with the 16 by 16 rendition primary. -/
theorem C1_witness :
    (svg_to_ico demoRaster demoEncode demoFS "in.svg" "out.ico" [16, 32]).container.map
        (fun c => c.entries.map (fun i => (i.width, i.height)))
      = some [(16, 16), (32, 32)] ∧
    (svg_to_ico demoRaster demoEncode demoFS "in.svg" "out.ico" [16, 32]).container.map
        (fun c => c.primary.width) = some 16 := by
  obtain ⟨c, hc, hlen, hmap, hdir, hent, hw, hh⟩ :=
    C1_convert_dimensions demoRaster demoEncode demoFS "in.svg" "out.ico" [16, 32]
      (by decide) (by decide) demoRaster_good
  rw [hc]
  constructor
  · simp [hmap]
  · simp [hw]

/-- C2 counterexample: invoked with an empty size list the code does perform
file I/O — it reads the input file — and the failure is IndexError at the
encode step, not a size-validation rejection; so the claim that the empty
list is rejected before any file I/O is false on the code. -/
theorem C2_counterexample :
    (svg_to_ico demoRaster demoEncode demoFS "in.svg" "out.ico" []).events
      = [Event.readFile "in.svg"] ∧
    (svg_to_ico demoRaster demoEncode demoFS "in.svg" "out.ico" []).events ≠ [] ∧
    (svg_to_ico demoRaster demoEncode demoFS "in.svg" "out.ico" []).result
      = Except.error PyErr.indexError := by
  refine ⟨rfl, ?_, rfl⟩
  decide

/-- C2 amended: with an empty size list (and an existing input file)
svg_to_ico performs no size validation: it reads the input file, performs no
rasterization, writes nothing, and fails with IndexError when indexing the
empty rendition list at the save step. -/
theorem C2_empty_sizes (raster : Raster) (encode : Encoder) (fs : FS)
    (svg_path ico_path : String) (hin : (fs.lookup svg_path).isSome) :
    (svg_to_ico raster encode fs svg_path ico_path []).result
      = Except.error PyErr.indexError ∧
    (svg_to_ico raster encode fs svg_path ico_path []).events
      = [Event.readFile svg_path] ∧
    (svg_to_ico raster encode fs svg_path ico_path []).fs = fs := by
  obtain ⟨b, hb⟩ := Option.isSome_iff_exists.mp hin
  simp [svg_to_ico, hb, renderLoop]

/-- C2 amended witness. -/
theorem C2_witness :
    (svg_to_ico demoRaster demoEncode demoFS "in.svg" "out.ico" []).result
      = Except.error PyErr.indexError :=
  (C2_empty_sizes demoRaster demoEncode demoFS "in.svg" "out.ico" (by decide)).1

/-- C4 counterexample: a size list whose entries include a non-positive value
(0) and a value above any reasonable bound (2048) is not rejected: the
conversion succeeds, so svg_to_ico does not fail with a size-validation
error. -/
theorem C4_counterexample :
    (svg_to_ico demoRaster demoEncode demoFS "in.svg" "out.ico" [0, 2048]).result
      = Except.ok true := rfl

/-- C4 amended: svg_to_ico performs no size validation: every entry,
non-positive or arbitrarily large ones included, is passed directly to the
rasterizer, and when the input exists and the rasterizer succeeds on each
entry the conversion succeeds for any non-empty size list. -/
theorem C4_no_size_validation (raster : Raster) (encode : Encoder) (fs : FS)
    (svg_path ico_path : String) (sizes : List Nat) (hne : sizes ≠ [])
    (hin : (fs.lookup svg_path).isSome) (hr : GoodRaster raster) :
    (svg_to_ico raster encode fs svg_path ico_path sizes).result = Except.ok true := by
  obtain ⟨b, hb⟩ := Option.isSome_iff_exists.mp hin
  obtain ⟨evs, imgs, hloop, hmap⟩ := renderLoop_ok_of_good raster b hr sizes
  cases imgs with
  | nil =>
    exfalso
    cases sizes with
    | nil => exact hne rfl
    | cons s ss => simp at hmap
  | cons i0 rest => simp [svg_to_ico, hb, hloop]

/-- C4 amended witness: sizes 0, 2048 and 5000 all pass unchecked. -/
theorem C4_witness :
    (svg_to_ico demoRaster demoEncode demoFS "in.svg" "out.ico" [0, 2048, 5000]).result
      = Except.ok true :=
  C4_no_size_validation demoRaster demoEncode demoFS "in.svg" "out.ico" [0, 2048, 5000]
    (by decide) (by decide) demoRaster_good

/-- C5: every image embedded in the output container uses the RGBA channel
layout: each rendition not already RGBA was converted to RGBA before being
appended to the rendition list. -/
theorem C5_all_rgba (raster : Raster) (encode : Encoder) (fs : FS)
    (svg_path ico_path : String) (sizes : List Nat) (c : IcoContainer)
    (hc : (svg_to_ico raster encode fs svg_path ico_path sizes).container = some c) :
    ∀ img ∈ c.entries, img.mode = "RGBA" := by
  cases hdata : fs.lookup svg_path with
  | none => simp [svg_to_ico, hdata] at hc
  | some svg_data =>
    cases hloop : renderLoop raster svg_data sizes with
    | mk evs r =>
      cases r with
      | error e => simp [svg_to_ico, hdata, hloop] at hc
      | ok imgs =>
        cases imgs with
        | nil => simp [svg_to_ico, hdata, hloop] at hc
        | cons img0 rest =>
          have hall := renderLoop_rgba raster svg_data sizes evs (img0 :: rest) hloop
          simp [svg_to_ico, hdata, hloop] at hc
          intro img hmem
          rw [hc.symm] at hmem
          exact hall img hmem

/-- C5 witness: a palette-mode rendition is converted, and the primary image
of the resulting container is RGBA. -/
theorem C5_witness :
    (⟨⟨16, 16, "RGBA", [16]⟩, [], [(16, 16)]⟩ : IcoContainer).primary.mode = "RGBA" :=
  C5_all_rgba demoRasterP demoEncode demoFS "in.svg" "out.ico" [16]
    ⟨⟨16, 16, "RGBA", [16]⟩, [], [(16, 16)]⟩ (by decide)
    (⟨16, 16, "RGBA", [16]⟩ : Image) (by decide)

/-- C3: when neither the default input path nor the single fallback path
exists, the entry point prints the not-found message, exits with status 1
(nonzero), performs no rasterization and no file reads or writes, and creates
or modifies no file. -/
theorem C3_input_not_found (raster : Raster) (encode : Encoder) (fs : FS)
    (scriptDir : String)
    (h0 : fs.pathExists (defaultSvgPath scriptDir) = false)
    (h1 : fs.pathExists (fallbackSvgPath scriptDir) = false) :
    (mainScript raster encode fs scriptDir).exitCode = 1 ∧
    (mainScript raster encode fs scriptDir).notFoundMessage
      = some ("SVG file not found: " ++ fallbackSvgPath scriptDir) ∧
    (mainScript raster encode fs scriptDir).events = [] ∧
    (mainScript raster encode fs scriptDir).fs = fs := by
  simp [mainScript, resolveInput, h0, h1]

/-- C3 witness: on an empty filesystem the entry point fails with the
not-found message, exit status 1, no events, and an unchanged filesystem. -/
theorem C3_witness :
    (mainScript demoRaster demoEncode emptyFS "S").exitCode = 1 ∧
    (mainScript demoRaster demoEncode emptyFS "S").notFoundMessage
      = some ("SVG file not found: " ++ fallbackSvgPath "S") ∧
    (mainScript demoRaster demoEncode emptyFS "S").events = [] ∧
    (mainScript demoRaster demoEncode emptyFS "S").fs = emptyFS :=
  C3_input_not_found demoRaster demoEncode emptyFS "S" (by decide) (by decide)

/-- C7: path resolution probes exactly one alternate path: the default path
is used when it exists, otherwise the single parent-location alternate, and
the entry point reports the not-found failure exactly when the resolved path
does not exist. -/
theorem C7_single_fallback (raster : Raster) (encode : Encoder) (fs : FS)
    (scriptDir : String) :
    (fs.pathExists (defaultSvgPath scriptDir) = true →
      resolveInput fs scriptDir = defaultSvgPath scriptDir) ∧
    (fs.pathExists (defaultSvgPath scriptDir) = false →
      resolveInput fs scriptDir = fallbackSvgPath scriptDir) ∧
    (mainScript raster encode fs scriptDir).notFoundMessage.isSome
      = !fs.pathExists (resolveInput fs scriptDir) := by
  refine ⟨fun h0 => by simp [resolveInput, h0], fun h0 => by simp [resolveInput, h0], ?_⟩
  by_cases h1 : fs.pathExists (resolveInput fs scriptDir) = true
  · simp [mainScript, h1]
  · have h1f : fs.pathExists (resolveInput fs scriptDir) = false :=
      Bool.eq_false_iff.mpr (fun hc => h1 hc)
    simp [mainScript, h1f]

/-- C7 witness: with only the fallback file present, resolution lands on the
fallback path and the entry point does not report not-found. -/
theorem C7_witness :
    resolveInput fallbackFS "S" = fallbackSvgPath "S" ∧
    (mainScript demoRaster demoEncode fallbackFS "S").notFoundMessage.isSome = false := by
  have h := C7_single_fallback demoRaster demoEncode fallbackFS "S"
  refine ⟨h.2.1 (by decide), ?_⟩
  rw [h.2.2]
  decide

/-- C8: determinism — two invocations with identical input bytes, the same
size list, the same output path and the same (deterministic) rasterization
and encoding dependencies give the same result and the same container, and
both leave the identical encoded bytes at the output path. -/
theorem C8_deterministic (raster : Raster) (encode : Encoder) (fs1 fs2 : FS)
    (svg_path ico_path : String) (sizes : List Nat)
    (h : fs1.lookup svg_path = fs2.lookup svg_path) :
    (svg_to_ico raster encode fs1 svg_path ico_path sizes).result
      = (svg_to_ico raster encode fs2 svg_path ico_path sizes).result ∧
    (svg_to_ico raster encode fs1 svg_path ico_path sizes).container
      = (svg_to_ico raster encode fs2 svg_path ico_path sizes).container ∧
    ∀ c, (svg_to_ico raster encode fs1 svg_path ico_path sizes).container = some c →
      (svg_to_ico raster encode fs1 svg_path ico_path sizes).fs.lookup ico_path
          = some (encode c) ∧
      (svg_to_ico raster encode fs2 svg_path ico_path sizes).fs.lookup ico_path
          = some (encode c) := by
  cases hdata : fs2.lookup svg_path with
  | none =>
    have h1 : fs1.lookup svg_path = none := by rw [h, hdata]
    simp [svg_to_ico, hdata, h1]
  | some svg_data =>
    have h1 : fs1.lookup svg_path = some svg_data := by rw [h, hdata]
    cases hloop : renderLoop raster svg_data sizes with
    | mk evs r =>
      cases r with
      | error e => simp [svg_to_ico, h1, hdata, hloop]
      | ok imgs =>
        cases imgs with
        | nil => simp [svg_to_ico, h1, hdata, hloop]
        | cons i0 rest =>
          refine ⟨by simp [svg_to_ico, h1, hdata, hloop], by simp [svg_to_ico, h1, hdata, hloop], ?_⟩
          intro c hc
          simp [svg_to_ico, h1, hdata, hloop] at hc
          constructor
          · simp [svg_to_ico, h1, hloop, hc.symm, lookup_writeFile_self]
          · simp [svg_to_ico, hdata, hloop, hc.symm, lookup_writeFile_self]

/-- C8 witness: re-running on a filesystem that already holds a stale output
file gives the same result and the same container as the first run. -/
theorem C8_witness :
    (svg_to_ico demoRaster demoEncode demoFS "in.svg" "out.ico" [16]).result
      = (svg_to_ico demoRaster demoEncode demoFS2 "in.svg" "out.ico" [16]).result ∧
    (svg_to_ico demoRaster demoEncode demoFS "in.svg" "out.ico" [16]).container
      = (svg_to_ico demoRaster demoEncode demoFS2 "in.svg" "out.ico" [16]).container := by
  have h := C8_deterministic demoRaster demoEncode demoFS demoFS2 "in.svg" "out.ico" [16]
    (by decide)
  exact ⟨h.1, h.2.1⟩

/-- C9: whenever svg_to_ico returns normally it returns True; failure is
never signalled through the return value — every failure propagates as an
exception, so the result is True-or-exception. -/
theorem C9_returns_true (raster : Raster) (encode : Encoder) (fs : FS)
    (svg_path ico_path : String) (sizes : List Nat) (b : Bool)
    (h : (svg_to_ico raster encode fs svg_path ico_path sizes).result = Except.ok b) :
    b = true := by
  cases hdata : fs.lookup svg_path with
  | none => simp [svg_to_ico, hdata] at h
  | some svg_data =>
    cases hloop : renderLoop raster svg_data sizes with
    | mk evs r =>
      cases r with
      | error e => simp [svg_to_ico, hdata, hloop] at h
      | ok imgs =>
        cases imgs with
        | nil => simp [svg_to_ico, hdata, hloop] at h
        | cons i0 rest =>
          simp [svg_to_ico, hdata, hloop] at h
          exact h

/-- C9 witness. -/
theorem C9_witness :
    (svg_to_ico demoRaster demoEncode demoFS "in.svg" "out.ico" [16]).result
      = Except.ok true ∧ true = true :=
  ⟨rfl, C9_returns_true demoRaster demoEncode demoFS "in.svg" "out.ico" [16] true rfl⟩

/-- C10: svg_to_ico never mutates its sizes argument (so the shared default
stays [16, 32, 48, 64, 128, 256] across invocations), never writes the input
file, and reads the input file exactly once per invocation (zero times when
it is missing, in which case open fails before reading). -/
theorem C10_frame (raster : Raster) (encode : Encoder) (fs : FS)
    (svg_path ico_path : String) (sizes : List Nat) (hpq : svg_path ≠ ico_path) :
    defaultSizes = [16, 32, 48, 64, 128, 256] ∧
    (svg_to_ico raster encode fs svg_path ico_path sizes).sizesAfter = sizes ∧
    countEvent (svg_to_ico raster encode fs svg_path ico_path sizes).events
      (Event.writeFile svg_path) = 0 ∧
    countEvent (svg_to_ico raster encode fs svg_path ico_path sizes).events
      (Event.readFile svg_path) = (if (fs.lookup svg_path).isSome then 1 else 0) ∧
    (svg_to_ico raster encode fs svg_path ico_path sizes).fs.lookup svg_path
      = fs.lookup svg_path := by
  cases hdata : fs.lookup svg_path with
  | none =>
    refine ⟨rfl, ?_, ?_, ?_, ?_⟩ <;> simp [svg_to_ico, hdata, countEvent_nil]
  | some svg_data =>
    have hras := renderLoop_events raster svg_data sizes
    cases hloop : renderLoop raster svg_data sizes with
    | mk evs r =>
      rw [hloop] at hras
      have hwz : countEvent evs (Event.writeFile svg_path) = 0 :=
        countEvent_eq_zero evs (Event.writeFile svg_path)
          (fun x hx => by obtain ⟨s, hs⟩ := hras x hx; rw [hs]; intro hcon; cases hcon)
      have hrz : countEvent evs (Event.readFile svg_path) = 0 :=
        countEvent_eq_zero evs (Event.readFile svg_path)
          (fun x hx => by obtain ⟨s, hs⟩ := hras x hx; rw [hs]; intro hcon; cases hcon)
      cases r with
      | error e =>
        refine ⟨rfl, ?_, ?_, ?_, ?_⟩ <;>
          simp [svg_to_ico, hdata, hloop, countEvent_cons, hwz, hrz]
      | ok imgs =>
        cases imgs with
        | nil =>
          refine ⟨rfl, ?_, ?_, ?_, ?_⟩ <;>
            simp [svg_to_ico, hdata, hloop, countEvent_cons, hwz, hrz]
        | cons i0 rest =>
          have hne2 : Event.writeFile ico_path ≠ Event.writeFile svg_path := by
            intro hcon
            cases hcon
            exact hpq rfl
          have hne3 : Event.writeFile ico_path ≠ Event.readFile svg_path := by
            intro hcon
            cases hcon
          refine ⟨rfl, ?_, ?_, ?_, ?_⟩
          · simp [svg_to_ico, hdata, hloop]
          · simp [svg_to_ico, hdata, hloop, countEvent_cons, countEvent_append, hwz,
              countEvent_nil, hne2]
          · simp [svg_to_ico, hdata, hloop, countEvent_cons, countEvent_append, hrz,
              countEvent_nil, hne3]
          · simp only [svg_to_ico, hdata, hloop]
            exact (lookup_writeFile_ne fs ico_path svg_path _ (fun hcon => hpq hcon.symm)).trans
              (by rw [hdata])

/-- C10 witness: a run with the default sizes leaves the sizes list intact
and never writes the input path. -/
theorem C10_witness :
    (svg_to_ico demoRaster demoEncode demoFS "in.svg" "out.ico" defaultSizes).sizesAfter
      = [16, 32, 48, 64, 128, 256] ∧
    countEvent (svg_to_ico demoRaster demoEncode demoFS "in.svg" "out.ico" defaultSizes).events
      (Event.writeFile "in.svg") = 0 := by
  have h := C10_frame demoRaster demoEncode demoFS "in.svg" "out.ico" defaultSizes (by decide)
  exact ⟨h.2.1, h.2.2.1⟩

end ConvertIcon
